import Mathlib

/-!
Verification of the mesh-slicing engine of the AI3DModelGenerator repository
(src/backend/utils/slicer.py), shallowly embedded over exact rational
arithmetic (ℚ in place of IEEE doubles).  Python objects become Lean
structures; in-place mutation becomes explicit state passing; fallible code
returns Option / Except.
-/

/-- A 3D point with rational coordinates (a row of a numpy vertex array). -/
structure Pt3 where
  x : ℚ
  y : ℚ
  z : ℚ
deriving DecidableEq, Repr

/-- The bounding box stored by the slicer: dict with keys min, max, size
(slicer.py lines 69-75). -/
structure BBox where
  min : Pt3
  max : Pt3
  size : Pt3
deriving DecidableEq, Repr

/-- Componentwise minimum of two points. -/
def vecMin (a b : Pt3) : Pt3 := ⟨min a.x b.x, min a.y b.y, min a.z b.z⟩

/-- Componentwise maximum of two points. -/
def vecMax (a b : Pt3) : Pt3 := ⟨max a.x b.x, max a.y b.y, max a.z b.z⟩

/-- Embedding of Slicer._calculate_bounding_box (slicer.py lines 69-75):
numpy min/max over axis 0; errors (None here) on an empty vertex array. -/
def calcBoundingBox (vs : List Pt3) : Option BBox :=
  match vs with
  | [] => none
  | v :: rest =>
    let mn := rest.foldl vecMin v
    let mx := rest.foldl vecMax v
    some ⟨mn, mx, ⟨mx.x - mn.x, mx.y - mn.y, mx.z - mn.z⟩⟩

/-- Embedding of SlicerConfig.__init__ (slicer.py lines 12-31).  The source
line 25 is first_layer_height or layer_height, Python or coalescing on
falsy values: None and 0 both fall back to layer_height. -/
structure SlicerConfig where
  layer_height : ℚ
  first_layer_height : ℚ
  nozzle_diameter : ℚ
  fill_density : ℚ
  fill_pattern : String
  perimeter_count : ℤ
  top_solid_layers : ℤ
  bottom_solid_layers : ℤ
deriving DecidableEq, Repr

/-- SlicerConfig constructor: first_layer_height passed as Optional, with
Python falsy coalescing (None or 0 gives layer_height), per line 25. -/
def SlicerConfig.make (layer_height : ℚ) (first_layer_height : Option ℚ)
    (nozzle_diameter fill_density : ℚ) (fill_pattern : String)
    (perimeter_count top_solid_layers bottom_solid_layers : ℤ) : SlicerConfig :=
  { layer_height := layer_height
    first_layer_height :=
      match first_layer_height with
      | none => layer_height
      | some v => if v = 0 then layer_height else v
    nozzle_diameter := nozzle_diameter
    fill_density := fill_density
    fill_pattern := fill_pattern
    perimeter_count := perimeter_count
    top_solid_layers := top_solid_layers
    bottom_solid_layers := bottom_solid_layers }

/-- A layer (slicer.py lines 33-39): z height, 0-based index, and the three
geometry lists, each a list of polylines of 3D points. -/
structure Layer where
  z_height : ℚ
  layer_index : ℕ
  contours : List (List Pt3)
  infill : List (List Pt3)
  supports : List (List Pt3)
deriving DecidableEq, Repr

/-- The mesh held by the slicer after loading: vertex list plus triangular
faces as index triples. -/
structure Mesh where
  vertices : List Pt3
  faces : List (ℕ × ℕ × ℕ)
deriving DecidableEq, Repr

/-- The Slicer object state (slicer.py lines 41-46). -/
structure Slicer where
  config : SlicerConfig
  mesh : Option Mesh
  layers : List Layer
  bounding_box : Option BBox
deriving DecidableEq, Repr

/-- Embedding of Slicer.load_mesh success path (slicer.py lines 48-67):
compute the bounding box from the raw vertices, then center the mesh by
subtracting center = (max + min) / 2 from every vertex
(Slicer._center_mesh, lines 77-80).  The stored bounding box is the one
computed BEFORE centering and is never refreshed.  Returns none when the
vertex array is empty (numpy min/max raise, caught, load returns False). -/
def load_mesh (s : Slicer) (m : Mesh) : Option Slicer :=
  match calcBoundingBox m.vertices with
  | none => none
  | some bb =>
    let center : Pt3 := ⟨(bb.max.x + bb.min.x) / 2, (bb.max.y + bb.min.y) / 2,
                         (bb.max.z + bb.min.z) / 2⟩
    let vs := m.vertices.map (fun v => (⟨v.x - center.x, v.y - center.y, v.z - center.z⟩ : Pt3))
    some { s with mesh := some ⟨vs, m.faces⟩, bounding_box := some bb }

/-- A fresh slicer with the given config (Slicer.__init__, lines 41-46). -/
def Slicer.init (cfg : SlicerConfig) : Slicer := ⟨cfg, none, [], none⟩

/-- One observation made by the progress callback during slice_mesh: the
value actually passed (slicer.py line 101 passes the single scalar
layer_index / total_layers) together with the content of self.layers at the
moment of the call (the callback runs before the current layer is appended,
lines 100-105). -/
structure Obs where
  arg : ℚ
  snapshot : List Layer
deriving DecidableEq, Repr

/-- The total_layers estimate of slicer.py line 97:
int(np.ceil((z_max - z_min - first_layer_height) / layer_height)) + 1,
exact-rational model of the float computation. -/
def codeTotalLayers (z_min z_max flh lh : ℚ) : ℤ :=
  ⌈(z_max - z_min - flh) / lh⌉ + 1

/-- Number of iterations of the while loop of slicer.py lines 99-108 when it
starts at height z: the number of indices i with z + i * layer_height
strictly below z_max (for positive layer_height). -/
def layerCount (z_max lh z : ℚ) : ℕ :=
  (⌈(z_max - z) / lh⌉).toNat

/-- Fuel bound used to render the while loop of slice_mesh structurally
recursive; one more than the exact iteration count. -/
def sliceFuel (z_min z_max flh lh : ℚ) : ℕ :=
  layerCount z_max lh (z_min + flh) + 1

/-- The while loop of Slicer.slice_mesh (slicer.py lines 99-108), with the
mutable self.layers passed as acc.  Each iteration first invokes the
progress callback (modelled by recording an Obs), then builds the layer,
slices it with the sectioning function, and appends it to the stored list.
Returns the observation trace and the final stored layer list. -/
def sliceAux (z_max lh : ℚ) (total : ℤ) (sect : ℚ → List (List Pt3)) :
    ℕ → ℚ → ℕ → List Layer → List Obs × List Layer
  | 0, _, _, acc => ([], acc)
  | fuel + 1, z, idx, acc =>
    if z < z_max then
      let ob : Obs := ⟨(idx : ℚ) / (total : ℚ), acc⟩
      let layer : Layer := ⟨z, idx, sect z, [], []⟩
      let res := sliceAux z_max lh total sect fuel (z + lh) (idx + 1) (acc ++ [layer])
      (ob :: res.1, res.2)
    else ([], acc)

/-- Signed straddling test for one triangle edge: the edge from p to q
crosses the open plane z = h iff the signed distances have opposite signs;
an endpoint exactly on the plane does not count (the spec drops such
degenerate contributions). -/
def edgeCrossing (h : ℚ) (p q : Pt3) : Option Pt3 :=
  if (p.z - h) * (q.z - h) < 0 then
    let t := (h - p.z) / (q.z - p.z)
    some ⟨p.x + t * (q.x - p.x), p.y + t * (q.y - p.y), p.z + t * (q.z - p.z)⟩
  else
    none

/-- Modelled from the spec: the per-triangle plane intersection of section
4.2 (the source delegates this step to the external trimesh library in
Slicer._slice_layer, slicer.py line 114).  A triangle whose vertices
straddle the plane contributes the segment between its two edge crossings;
triangles fully on one side, and degenerate contributions, are dropped. -/
def triSegment (h : ℚ) (t : Pt3 × Pt3 × Pt3) : Option (Pt3 × Pt3) :=
  let pts := [edgeCrossing h t.1 t.2.1, edgeCrossing h t.2.1 t.2.2,
              edgeCrossing h t.2.2 t.1].reduceOption
  match pts with
  | [u, v] => if u = v then none else some (u, v)
  | _ => none

/-- Remove from the segment pool the first segment having p as an endpoint,
returning its other endpoint and the remaining pool. -/
def findAndRemove (p : Pt3) : List (Pt3 × Pt3) → Option (Pt3 × List (Pt3 × Pt3))
  | [] => none
  | s :: rest =>
    if s.1 = p then some (s.2, rest)
    else if s.2 = p then some (s.1, rest)
    else
      match findAndRemove p rest with
      | some (q, rem) => some (q, s :: rem)
      | none => none

/-- Modelled from the spec: one chain walk of section 4.2.  The chain is
kept reversed, with the free endpoint at the head and the start point at the
tail; it is repeatedly extended by an unused segment sharing the free
endpoint until no match is found or the chain closes (start point reached).
Returns the finished contour (in walk order) and the unused segments. -/
def chainLoop : ℕ → List (Pt3 × Pt3) → List Pt3 → List Pt3 × List (Pt3 × Pt3)
  | 0, segs, acc => (acc.reverse, segs)
  | fuel + 1, segs, acc =>
    match acc with
    | [] => ([], segs)
    | cur :: rest =>
      match findAndRemove cur segs with
      | none => ((cur :: rest).reverse, segs)
      | some (q, remaining) =>
        let acc2 := q :: cur :: rest
        if q = acc2.getLast (by simp [acc2]) then (acc2.reverse, remaining)
        else chainLoop fuel remaining acc2

/-- Modelled from the spec: chain the raw segment set of one layer into
contours (section 4.2): repeatedly pick an unused segment and walk a chain
from it. -/
def chainAll : ℕ → List (Pt3 × Pt3) → List (List Pt3)
  | 0, _ => []
  | _ + 1, [] => []
  | fuel + 1, s :: rest =>
    let res := chainLoop (fuel + 1) rest [s.2, s.1]
    res.1 :: chainAll fuel res.2

/-- Look up a face's three vertices; faces with out-of-range indices are
dropped. -/
def meshTris (m : Mesh) : List (Pt3 × Pt3 × Pt3) :=
  m.faces.filterMap fun f =>
    match m.vertices.get? f.1, m.vertices.get? f.2.1, m.vertices.get? f.2.2 with
    | some a, some b, some c => some (a, b, c)
    | _, _, _ => none

/-- Modelled from the spec: the full cross-section of the mesh at height h
(section 4.2), standing in for Slicer._slice_layer (slicer.py lines
112-122), whose plane intersection and contour assembly live in the external
trimesh library: intersect every triangle, then chain the segments into
contours. -/
def specSection (tris : List (Pt3 × Pt3 × Pt3)) (h : ℚ) : List (List Pt3) :=
  let segs := tris.filterMap (triSegment h)
  chainAll (segs.length + 1) segs

/-- Embedding of Slicer.slice_mesh (slicer.py lines 82-110).  Requires a
loaded mesh (RuntimeError otherwise) and the stored bounding box (whose Z
range, lines 90-91, drives the schedule).  self.layers is reset to [] and
rebuilt by the loop; cb records whether a progress callback was supplied
(line 100): when it is, the returned trace lists one observation per
callback invocation. -/
def slice_mesh (cb : Bool) (s : Slicer) : Option (List Obs × Slicer) :=
  match s.mesh, s.bounding_box with
  | some m, some bb =>
    let z_min := bb.min.z
    let z_max := bb.max.z
    let flh := s.config.first_layer_height
    let lh := s.config.layer_height
    let total := codeTotalLayers z_min z_max flh lh
    let res := sliceAux z_max lh total (specSection (meshTris m))
      (sliceFuel z_min z_max flh lh) (z_min + flh) 0 []
    some (if cb then res.1 else [], { s with layers := res.2 })
  | _, _ => none

/-- Closed form of the layer built at iteration j of the slice loop started
at height z with starting index idx. -/
def schedLayer (sect : ℚ → List (List Pt3)) (z lh : ℚ) (idx j : ℕ) : Layer :=
  ⟨z + (j : ℚ) * lh, idx + j, sect (z + (j : ℚ) * lh), [], []⟩

/-- Closed form of the first n layers of the slice loop. -/
def schedLayers (sect : ℚ → List (List Pt3)) (z lh : ℚ) (idx n : ℕ) : List Layer :=
  (List.range n).map (schedLayer sect z lh idx)

/-- Closed form of observation i of the slice loop: the scalar ratio passed
to the callback and the stored layers visible at that moment. -/
def schedObs (sect : ℚ → List (List Pt3)) (z lh : ℚ) (total : ℤ)
    (idx : ℕ) (acc : List Layer) (i : ℕ) : Obs :=
  ⟨((idx + i : ℕ) : ℚ) / (total : ℚ), acc ++ schedLayers sect z lh idx i⟩

theorem schedLayer_shift (sect : ℚ → List (List Pt3)) (z lh : ℚ) (idx j : ℕ) :
    schedLayer sect (z + lh) lh (idx + 1) j = schedLayer sect z lh idx (j + 1) := by
  have hz : z + lh + (j : ℚ) * lh = z + ((j + 1 : ℕ) : ℚ) * lh := by push_cast; ring
  have hn : idx + 1 + j = idx + (j + 1) := by omega
  simp only [schedLayer, hz, hn]

theorem schedLayers_succ (sect : ℚ → List (List Pt3)) (z lh : ℚ) (idx n : ℕ) :
    schedLayers sect z lh idx (n + 1) =
      schedLayer sect z lh idx 0 :: schedLayers sect (z + lh) lh (idx + 1) n := by
  simp only [schedLayers, List.range_succ_eq_map, List.map_cons, List.map_map]
  refine congrArg (schedLayer sect z lh idx 0 :: ·) ?_
  refine List.map_congr_left fun j _ => ?_
  simp only [Function.comp_apply, schedLayer_shift]

theorem schedLayer_zero (sect : ℚ → List (List Pt3)) (z lh : ℚ) (idx : ℕ) :
    schedLayer sect z lh idx 0 = ⟨z, idx, sect z, [], []⟩ := by
  simp [schedLayer]

theorem schedObs_shift (sect : ℚ → List (List Pt3)) (z lh : ℚ) (total : ℤ)
    (idx : ℕ) (acc : List Layer) (i : ℕ) :
    schedObs sect (z + lh) lh total (idx + 1) (acc ++ [schedLayer sect z lh idx 0]) i =
      schedObs sect z lh total idx acc (i + 1) := by
  simp only [schedObs, Obs.mk.injEq]
  constructor
  · have h : idx + 1 + i = idx + (i + 1) := by omega
    rw [h]
  · rw [schedLayers_succ, List.append_assoc]
    rfl

theorem layerCount_eq_zero {z_max lh z : ℚ} (hlh : 0 < lh) (hz : ¬ z < z_max) :
    layerCount z_max lh z = 0 := by
  have h1 : (z_max - z) / lh ≤ 0 :=
    div_nonpos_iff.mpr (Or.inr ⟨by linarith, hlh.le⟩)
  simp only [layerCount, Int.toNat_eq_zero]
  rw [Int.ceil_le]
  exact_mod_cast h1

theorem layerCount_succ {z_max lh z : ℚ} (hlh : 0 < lh) (hz : z < z_max) :
    layerCount z_max lh z = layerCount z_max lh (z + lh) + 1 := by
  have hne : lh ≠ 0 := ne_of_gt hlh
  have h1 : (z_max - (z + lh)) / lh = (z_max - z) / lh - 1 := by
    field_simp
    ring
  have h2 : (0 : ℚ) < (z_max - z) / lh := div_pos (by linarith) hlh
  have h3 : (1 : ℤ) ≤ ⌈(z_max - z) / lh⌉ := Int.ceil_pos.mpr h2
  simp only [layerCount, h1, Int.ceil_sub_one]
  omega

theorem lt_layerCount_iff {z_max lh z : ℚ} (hlh : 0 < lh) (i : ℕ) :
    z + (i : ℚ) * lh < z_max ↔ i < layerCount z_max lh z := by
  unfold layerCount
  rw [Int.lt_toNat, Int.lt_ceil, lt_div_iff₀ hlh]
  push_cast
  constructor <;> intro h <;> linarith

/-- The slice loop, run with enough fuel and positive layer height, produces
exactly the scheduled observations and appends exactly the scheduled layers:
the full characterization of slicer.py lines 99-108. -/
theorem sliceAux_spec (z_max lh : ℚ) (total : ℤ) (sect : ℚ → List (List Pt3))
    (hlh : 0 < lh) :
    ∀ (fuel : ℕ) (z : ℚ) (idx : ℕ) (acc : List Layer),
      layerCount z_max lh z ≤ fuel →
      sliceAux z_max lh total sect fuel z idx acc =
        ((List.range (layerCount z_max lh z)).map (schedObs sect z lh total idx acc),
         acc ++ schedLayers sect z lh idx (layerCount z_max lh z)) := by
  intro fuel
  induction fuel with
  | zero =>
    intro z idx acc h
    have h0 : layerCount z_max lh z = 0 := Nat.le_zero.mp h
    simp [sliceAux, h0, schedLayers]
  | succ fuel ih =>
    intro z idx acc h
    by_cases hz : z < z_max
    · have hsucc := layerCount_succ hlh hz
      have hle : layerCount z_max lh (z + lh) ≤ fuel := by omega
      simp only [sliceAux, if_pos hz]
      rw [ih (z + lh) (idx + 1) (acc ++ [(⟨z, idx, sect z, [], []⟩ : Layer)]) hle, hsucc]
      have hL0 : (⟨z, idx, sect z, [], []⟩ : Layer) = schedLayer sect z lh idx 0 :=
        (schedLayer_zero sect z lh idx).symm
      refine Prod.ext ?_ ?_
      · simp only
        rw [List.range_succ_eq_map, List.map_cons, List.map_map]
        refine congrArg₂ (· :: ·) ?_ ?_
        · simp [schedObs, schedLayers]
        · refine List.map_congr_left fun i _ => ?_
          simp only [Function.comp_apply, hL0, schedObs_shift]
      · simp only
        rw [schedLayers_succ, hL0, List.append_assoc]
        rfl
    · have h0 : layerCount z_max lh z = 0 := layerCount_eq_zero hlh hz
      simp [sliceAux, if_neg hz, h0, schedLayers]

/-- slice_mesh on a slicer holding a mesh and a bounding box, in closed
form: the trace is the scheduled observation list when a callback is
supplied (empty otherwise) and the new layer list is the scheduled one,
replacing whatever was stored before. -/
theorem slice_mesh_closed (cb : Bool) (cfg : SlicerConfig) (m : Mesh)
    (l0 : List Layer) (bb : BBox) (hlh : 0 < cfg.layer_height) :
    slice_mesh cb ⟨cfg, some m, l0, some bb⟩ =
      some
        ((if cb then
            (List.range (layerCount bb.max.z cfg.layer_height
                (bb.min.z + cfg.first_layer_height))).map
              (schedObs (specSection (meshTris m))
                (bb.min.z + cfg.first_layer_height) cfg.layer_height
                (codeTotalLayers bb.min.z bb.max.z cfg.first_layer_height
                  cfg.layer_height) 0 [])
          else []),
         ⟨cfg, some m,
          schedLayers (specSection (meshTris m))
            (bb.min.z + cfg.first_layer_height) cfg.layer_height 0
            (layerCount bb.max.z cfg.layer_height
              (bb.min.z + cfg.first_layer_height)),
          some bb⟩) := by
  have h := sliceAux_spec bb.max.z cfg.layer_height
    (codeTotalLayers bb.min.z bb.max.z cfg.first_layer_height cfg.layer_height)
    (specSection (meshTris m)) hlh
    (sliceFuel bb.min.z bb.max.z cfg.first_layer_height cfg.layer_height)
    (bb.min.z + cfg.first_layer_height) 0 [] (by unfold sliceFuel; omega)
  simp only [slice_mesh, h, List.nil_append]

/-- Demo mesh for the stale-bounding-box bug: two vertices not centered at
the origin. -/
def c1Mesh : Mesh := ⟨[⟨0, 0, 0⟩, ⟨2, 2, 2⟩], []⟩

/-- Default-config slicer used in the C1 scenario. -/
def c1Cfg : SlicerConfig := SlicerConfig.make (1/5) none (2/5) (1/5) "grid" 2 3 3

/-- Slicer state after loading c1Mesh. -/
def c1Slicer : Slicer := (load_mesh (Slicer.init c1Cfg) c1Mesh).getD (Slicer.init c1Cfg)

/-- Claim C1: after load_mesh succeeds, the stored bounding box is the one
computed before centering: on the mesh with vertices (0,0,0) and (2,2,2) the
stored box has min (0,0,0) and max (2,2,2), while the box recomputed from the
current (post-centering) vertices has min (-1,-1,-1) and max (1,1,1); the
stored box is not the recomputed one and its min is not the negation of its
max, refuting the claimed invariant. -/
theorem C1_stale_bounding_box :
    c1Slicer.bounding_box = some ⟨⟨0, 0, 0⟩, ⟨2, 2, 2⟩, ⟨2, 2, 2⟩⟩ ∧
    c1Slicer.mesh.map (fun m => calcBoundingBox m.vertices) =
      some (some ⟨⟨-1, -1, -1⟩, ⟨1, 1, 1⟩, ⟨2, 2, 2⟩⟩) ∧
    c1Slicer.bounding_box ≠ c1Slicer.mesh.bind (fun m => calcBoundingBox m.vertices) ∧
    c1Slicer.bounding_box.map
      (fun bb => decide (bb.min = (⟨-bb.max.x, -bb.max.y, -bb.max.z⟩ : Pt3))) =
      some false := by
  with_unfolding_all decide

/-- schedLayers has exactly n layers. -/
theorem schedLayers_length (sect : ℚ → List (List Pt3)) (z lh : ℚ) (idx n : ℕ) :
    (schedLayers sect z lh idx n).length = n := by
  simp [schedLayers]

/-- Entry i of schedLayers, for i in range. -/
theorem schedLayers_get? (sect : ℚ → List (List Pt3)) (z lh : ℚ) (idx n i : ℕ)
    (hi : i < n) :
    (schedLayers sect z lh idx n).get? i = some (schedLayer sect z lh idx i) := by
  simp [schedLayers, List.get?_eq_getElem?, hi]

/-- The vertices of the unit cube, at distance 1/2 from the origin on every
axis: bottom face first, then top face. -/
def cubeVerts : List Pt3 :=
  [⟨-1/2, -1/2, -1/2⟩, ⟨1/2, -1/2, -1/2⟩, ⟨1/2, 1/2, -1/2⟩, ⟨-1/2, 1/2, -1/2⟩,
   ⟨-1/2, -1/2, 1/2⟩, ⟨1/2, -1/2, 1/2⟩, ⟨1/2, 1/2, 1/2⟩, ⟨-1/2, 1/2, 1/2⟩]

/-- A standard triangulation of the cube surface: two triangles per face. -/
def cubeFaces : List (ℕ × ℕ × ℕ) :=
  [(0, 1, 2), (0, 2, 3), (4, 6, 5), (4, 7, 6), (0, 1, 5), (0, 5, 4),
   (2, 3, 7), (2, 7, 6), (0, 3, 7), (0, 7, 4), (1, 2, 6), (1, 6, 5)]

/-- The unit cube mesh of the spec's concrete scenario. -/
def cubeMesh : Mesh := ⟨cubeVerts, cubeFaces⟩

/-- The scenario config: layer_height = 0.2, first_layer_height = 0.2,
remaining parameters at their defaults. -/
def cubeCfg : SlicerConfig := SlicerConfig.make (1/5) (some (1/5)) (2/5) (1/5) "grid" 2 3 3

/-- Slicer state after loading the unit cube. -/
def cubeLoaded : Slicer := (load_mesh (Slicer.init cubeCfg) cubeMesh).getD (Slicer.init cubeCfg)

/-- Result of slicing the loaded cube with a progress callback supplied. -/
def cubeRun : List Obs × Slicer := (slice_mesh true cubeLoaded).getD ([], cubeLoaded)

/-- The callback observation trace of the cube run. -/
def cubeTrace : List Obs := cubeRun.1

/-- The slicer state after the cube run. -/
def cubeSliced : Slicer := cubeRun.2

/-- The centered cube mesh stored by load_mesh. -/
def cubeMeshC : Mesh := cubeLoaded.mesh.getD ⟨[], []⟩

/-- The bounding box stored by load_mesh for the cube. -/
def cubeBB : BBox := cubeLoaded.bounding_box.getD ⟨⟨0, 0, 0⟩, ⟨0, 0, 0⟩, ⟨0, 0, 0⟩⟩

/-- Claim C4: slice_mesh emits layer i at z_height
z_min + first_layer_height + i * layer_height, emits exactly the layers with
z strictly below z_max, and assigns layer_index sequentially from 0 in
emission order; z range taken from the stored bounding box. -/
theorem C4_layer_schedule (cfg : SlicerConfig) (m : Mesh) (bb : BBox)
    (l0 : List Layer) (cb : Bool) (tr : List Obs) (sp : Slicer)
    (hlh : 0 < cfg.layer_height)
    (h : slice_mesh cb ⟨cfg, some m, l0, some bb⟩ = some (tr, sp)) :
    (∀ i : ℕ, i < sp.layers.length →
      (sp.layers.get? i).map Layer.z_height =
        some (bb.min.z + cfg.first_layer_height + (i : ℚ) * cfg.layer_height) ∧
      (sp.layers.get? i).map Layer.layer_index = some i) ∧
    (∀ i : ℕ,
      (bb.min.z + cfg.first_layer_height + (i : ℚ) * cfg.layer_height < bb.max.z ↔
        i < sp.layers.length)) := by
  rw [slice_mesh_closed cb cfg m l0 bb hlh] at h
  have hsp : sp = ⟨cfg, some m,
      schedLayers (specSection (meshTris m))
        (bb.min.z + cfg.first_layer_height) cfg.layer_height 0
        (layerCount bb.max.z cfg.layer_height (bb.min.z + cfg.first_layer_height)),
      some bb⟩ := by
    have := (Option.some.injEq _ _).mp h
    exact (Prod.mk.injEq _ _ _ _).mp this |>.2.symm
  subst hsp
  simp only [schedLayers_length]
  constructor
  · intro i hi
    rw [schedLayers_get? _ _ _ _ _ _ hi]
    simp [schedLayer]
  · intro i
    exact lt_layerCount_iff hlh i

/-- Instantiation of the C4 schedule theorem on the unit-cube run, at layer
index 2. -/
theorem C4_layer_schedule_witness :
    (0 : ℚ) < cubeCfg.layer_height ∧
    (cubeBB.min.z + cubeCfg.first_layer_height + (2 : ℚ) * cubeCfg.layer_height <
        cubeBB.max.z ↔ 2 < cubeSliced.layers.length) := by
  refine ⟨by with_unfolding_all decide, ?_⟩
  exact (C4_layer_schedule cubeCfg cubeMeshC cubeBB [] true cubeTrace cubeSliced
    (by with_unfolding_all decide) (by with_unfolding_all decide)).2 2

/-- Taking a prefix of the scheduled layers truncates the schedule. -/
theorem schedLayers_take (sect : ℚ → List (List Pt3)) (z lh : ℚ) (idx n k : ℕ)
    (hk : k ≤ n) :
    (schedLayers sect z lh idx n).take k = schedLayers sect z lh idx k := by
  simp [schedLayers, ← List.map_take, List.take_range, Nat.min_eq_left hk]

/-- slice_mesh in closed form when a progress callback is supplied. -/
theorem slice_mesh_closed_true (cfg : SlicerConfig) (m : Mesh)
    (l0 : List Layer) (bb : BBox) (hlh : 0 < cfg.layer_height) :
    slice_mesh true ⟨cfg, some m, l0, some bb⟩ =
      some
        ((List.range (layerCount bb.max.z cfg.layer_height
            (bb.min.z + cfg.first_layer_height))).map
          (schedObs (specSection (meshTris m))
            (bb.min.z + cfg.first_layer_height) cfg.layer_height
            (codeTotalLayers bb.min.z bb.max.z cfg.first_layer_height
              cfg.layer_height) 0 []),
         ⟨cfg, some m,
          schedLayers (specSection (meshTris m))
            (bb.min.z + cfg.first_layer_height) cfg.layer_height 0
            (layerCount bb.max.z cfg.layer_height
              (bb.min.z + cfg.first_layer_height)),
          some bb⟩) := by
  rw [slice_mesh_closed true cfg m l0 bb hlh]
  simp

/-- slice_mesh in closed form when no progress callback is supplied: the
same final state, with no callback observations. -/
theorem slice_mesh_closed_false (cfg : SlicerConfig) (m : Mesh)
    (l0 : List Layer) (bb : BBox) (hlh : 0 < cfg.layer_height) :
    slice_mesh false ⟨cfg, some m, l0, some bb⟩ =
      some
        ([],
         ⟨cfg, some m,
          schedLayers (specSection (meshTris m))
            (bb.min.z + cfg.first_layer_height) cfg.layer_height 0
            (layerCount bb.max.z cfg.layer_height
              (bb.min.z + cfg.first_layer_height)),
          some bb⟩) := by
  rw [slice_mesh_closed false cfg m l0 bb hlh]
  simp

/-- Claim C5 (amended): the stored layer list is rebuilt incrementally, so a
reader inside the k-th progress-callback invocation sees exactly the first k
layers of the new sequence, a strict prefix of the final stack. -/
theorem C5_snapshot_mid_slice (cfg : SlicerConfig) (m : Mesh) (bb : BBox)
    (l0 : List Layer) (tr : List Obs) (sp : Slicer)
    (hlh : 0 < cfg.layer_height)
    (h : slice_mesh true ⟨cfg, some m, l0, some bb⟩ = some (tr, sp)) :
    ∀ (k : ℕ) (o : Obs), tr.get? k = some o → o.snapshot = sp.layers.take k := by
  rw [slice_mesh_closed_true cfg m l0 bb hlh] at h
  have hinj := (Prod.mk.injEq _ _ _ _).mp ((Option.some.injEq _ _).mp h)
  obtain ⟨htr, hsp⟩ := hinj
  subst htr
  subst hsp
  intro k o ho
  by_cases hk : k < layerCount bb.max.z cfg.layer_height (bb.min.z + cfg.first_layer_height)
  · rw [List.get?_eq_getElem?, List.getElem?_map, List.getElem?_range hk] at ho
    simp only [Option.map_some'] at ho
    injection ho with ho2
    subst ho2
    simp only [schedObs, List.nil_append]
    rw [schedLayers_take _ _ _ _ _ _ hk.le]
  · exfalso
    rw [List.get?_eq_getElem?, List.getElem?_eq_none] at ho
    · exact Option.noConfusion ho
    · simp only [List.length_map, List.length_range]
      omega

/-- Instantiation of the C5 snapshot theorem on the unit-cube run: the
observer of callback invocation 2 sees exactly the first 2 layers. -/
theorem C5_snapshot_mid_slice_witness :
    (cubeTrace.get? 2).map Obs.snapshot = some (cubeSliced.layers.take 2) := by
  have h := C5_snapshot_mid_slice cubeCfg cubeMeshC cubeBB [] cubeTrace
    cubeSliced (by with_unfolding_all decide) (by with_unfolding_all decide)
  have hs : (cubeTrace.get? 2).isSome = true := by with_unfolding_all decide
  obtain ⟨o, ho⟩ := Option.isSome_iff_exists.mp hs
  rw [ho, Option.map_some']
  rw [h 2 o ho]

/-- Claim C5 as stated is false on the code: before slicing, the cube
slicer's layer list is empty (the previous complete sequence), the new
complete sequence has 4 layers, yet the reader inside callback invocation 2
sees a 2-layer snapshot, which is neither. -/
theorem C5_mid_slice_counterexample :
    (Slicer.init cubeCfg).layers = [] ∧
    cubeSliced.layers.length = 4 ∧
    (cubeTrace.get? 2).map (fun o => o.snapshot.length) = some 2 ∧
    (cubeTrace.get? 2).map (fun o => decide (o.snapshot = [])) = some false ∧
    (cubeTrace.get? 2).map (fun o => decide (o.snapshot = cubeSliced.layers)) =
      some false := by
  with_unfolding_all decide

/-- The total-estimate formula of the claim for C6, following its words:
floor((z_max - z_min - first_layer_height) / layer_height) + 1. -/
def claimTotalEstimate (z_min z_max flh lh : ℚ) : ℤ :=
  ⌊(z_max - z_min - flh) / lh⌋ + 1

/-- Claim C6 (amended): with a callback supplied, slice_mesh makes one
callback invocation per emitted layer, each passed the single scalar
layer_index / total_layers with the ceil-based total of slicer.py line 97,
invoked before the current layer is completed (k prior layers visible at
invocation k); omitting the callback produces the identical final state. -/
theorem C6_progress_reporting (cfg : SlicerConfig) (m : Mesh) (bb : BBox)
    (l0 : List Layer) (tr : List Obs) (sp : Slicer)
    (hlh : 0 < cfg.layer_height)
    (h : slice_mesh true ⟨cfg, some m, l0, some bb⟩ = some (tr, sp)) :
    tr.length = sp.layers.length ∧
    (∀ k : ℕ, k < tr.length →
      (tr.get? k).map Obs.arg =
        some ((k : ℚ) /
          ((codeTotalLayers bb.min.z bb.max.z cfg.first_layer_height
            cfg.layer_height : ℤ) : ℚ))) ∧
    (∀ (k : ℕ) (o : Obs), tr.get? k = some o → o.snapshot.length = k) ∧
    slice_mesh false ⟨cfg, some m, l0, some bb⟩ = some ([], sp) := by
  rw [slice_mesh_closed_true cfg m l0 bb hlh] at h
  have hinj := (Prod.mk.injEq _ _ _ _).mp ((Option.some.injEq _ _).mp h)
  obtain ⟨htr, hsp⟩ := hinj
  subst htr
  subst hsp
  refine ⟨by simp [schedLayers], ?_, ?_, ?_⟩
  · intro k hk
    simp only [List.length_map, List.length_range] at hk
    rw [List.get?_eq_getElem?, List.getElem?_map, List.getElem?_range hk]
    simp [schedObs]
  · intro k o ho
    by_cases hk : k < layerCount bb.max.z cfg.layer_height
        (bb.min.z + cfg.first_layer_height)
    · rw [List.get?_eq_getElem?, List.getElem?_map, List.getElem?_range hk] at ho
      simp only [Option.map_some'] at ho
      injection ho with ho2
      subst ho2
      simp [schedObs, schedLayers]
    · exfalso
      rw [List.get?_eq_getElem?, List.getElem?_eq_none] at ho
      · exact Option.noConfusion ho
      · simp only [List.length_map, List.length_range]
        omega
  · rw [slice_mesh_closed_false cfg m l0 bb hlh]

/-- The claim for C6 is false on the code at the concrete Z range
[0, 1] with first_layer_height 0.2 and layer_height 0.3: the code's
ceil-based total (slicer.py line 97) is 4 while the claimed floor-based
total is 3; and on the cube run the first invocation receives the single
scalar 0 with no completed layer visible, not a post-completion pair. -/
theorem C6_progress_counterexample :
    codeTotalLayers 0 1 (1/5) (3/10) = 4 ∧
    claimTotalEstimate 0 1 (1/5) (3/10) = 3 ∧
    codeTotalLayers 0 1 (1/5) (3/10) ≠ claimTotalEstimate 0 1 (1/5) (3/10) ∧
    (cubeTrace.get? 0).map Obs.arg = some 0 ∧
    (cubeTrace.get? 0).map (fun o => o.snapshot.length) = some 0 := by
  with_unfolding_all decide

/-- Instantiation of the C6 progress theorem on the unit-cube run at
invocation 1. -/
theorem C6_progress_reporting_witness :
    (cubeTrace.get? 1).map Obs.arg =
      some ((1 : ℚ) /
        ((codeTotalLayers cubeBB.min.z cubeBB.max.z cubeCfg.first_layer_height
          cubeCfg.layer_height : ℤ) : ℚ)) := by
  have h := C6_progress_reporting cubeCfg cubeMeshC cubeBB [] cubeTrace cubeSliced
    (by with_unfolding_all decide) (by with_unfolding_all decide)
  have h1 : 1 < cubeTrace.length := by with_unfolding_all decide
  have := h.2.1 1 h1
  simpa using this

/-- Is p on the boundary of the axis-aligned square of side 1 centered at
the origin, lifted to height c. -/
def onSquareBoundary (c : ℚ) (p : Pt3) : Bool :=
  decide (p.z = c) &&
  ((decide (p.x = 1/2) || decide (p.x = -1/2)) &&
     decide (-1/2 ≤ p.y) && decide (p.y ≤ 1/2) ||
   (decide (p.y = 1/2) || decide (p.y = -1/2)) &&
     decide (-1/2 ≤ p.x) && decide (p.x ≤ 1/2))

/-- Does the point list trace a closed loop around the unit square at
height c: closed (first point equals last), every point on the square's
boundary, and all four corners visited. -/
def isClosedSquareLoop (c : ℚ) (ps : List Pt3) : Bool :=
  decide (4 ≤ ps.length) &&
  (match ps.head?, ps.getLast? with
   | some a, some b => decide (a = b)
   | _, _ => false) &&
  ps.all (onSquareBoundary c) &&
  [((1 : ℚ)/2, (1 : ℚ)/2), ((1 : ℚ)/2, -(1 : ℚ)/2),
   (-(1 : ℚ)/2, (1 : ℚ)/2), (-(1 : ℚ)/2, -(1 : ℚ)/2)].all
    (fun q => ps.any (fun p => decide (p = (⟨q.1, q.2, c⟩ : Pt3))))

/-- Claim C7 as stated is false on the code: slicing the unit cube with
layer_height = first_layer_height = 0.2 yields 4 layers, not 5 (the
candidate at z = 0.5 equals z_max and the loop admits only z < z_max). -/
theorem C7_cube_counterexample :
    cubeSliced.layers.length = 4 ∧ cubeSliced.layers.length ≠ 5 := by
  with_unfolding_all decide

/-- Claim C7 (amended): the unit-cube scenario yields exactly 4 layers, at
z = -0.3, -0.1, 0.1 and 0.3 with sequential indices, and (with the plane
intersection and contour chaining modelled from the spec, the source
delegating them to the trimesh library) each layer carries exactly one
closed contour tracing the square of side 1.0. -/
theorem C7_cube_layers_and_contours :
    cubeSliced.layers.map Layer.z_height = [-3/10, -1/10, 1/10, 3/10] ∧
    cubeSliced.layers.map Layer.layer_index = [0, 1, 2, 3] ∧
    cubeSliced.layers.all
      (fun L => decide (L.contours.length = 1) &&
        L.contours.all (isClosedSquareLoop L.z_height)) = true := by
  with_unfolding_all decide

/-- The statistics dictionary of Slicer.get_statistics (slicer.py lines
174-181). -/
structure Stats where
  total_layers : ℕ
  total_height_mm : ℚ
  first_layer_height_mm : ℚ
  layer_height_mm : ℚ
  bounding_box : Option BBox
  estimated_time_minutes : ℚ
deriving DecidableEq, Repr

/-- Embedding of Slicer.get_statistics (slicer.py lines 166-181): empty
result (none) when there are no layers; otherwise total_height is
layer_height summed over every layer (n * layer_height) plus the actual
first-layer height layers[0].z_height - bounding-box min z (0 when no box is
stored), and estimated_time = total_height / layer_height * 0.5. -/
def get_statistics (s : Slicer) : Option Stats :=
  match s.layers with
  | [] => none
  | l :: _ =>
    let n := s.layers.length
    let first_layer_height :=
      l.z_height - (match s.bounding_box with | some bb => bb.min.z | none => 0)
    let total_height := (n : ℚ) * s.config.layer_height + first_layer_height
    some
      { total_layers := n
        total_height_mm := total_height
        first_layer_height_mm := s.config.first_layer_height
        layer_height_mm := s.config.layer_height
        bounding_box := s.bounding_box
        estimated_time_minutes := total_height / s.config.layer_height * (1/2) }

/-- Claim C3 as stated is false on the code: on the sliced unit cube
(4 layers, layer_height = first_layer_height = 0.2) the code reports
total_height_mm = 1.0 and estimated_time_minutes = 2.5, while the claimed
formulas give 0.2 + 3 * 0.2 = 0.8 and 0.8 / 0.2 * 0.5 = 2.0. -/
theorem C3_statistics_counterexample :
    (get_statistics cubeSliced).map Stats.total_height_mm = some 1 ∧
    cubeCfg.first_layer_height +
      ((cubeSliced.layers.length : ℚ) - 1) * cubeCfg.layer_height = 4/5 ∧
    (1 : ℚ) ≠ 4/5 ∧
    (get_statistics cubeSliced).map Stats.estimated_time_minutes = some (5/2) ∧
    (4 : ℚ)/5 / cubeCfg.layer_height * (1/2) = 2 ∧
    (5 : ℚ)/2 ≠ 2 := by
  with_unfolding_all decide

/-- Claim C3 (amended): for every state produced by a successful slice with
a non-empty layer sequence of n layers, get_statistics returns
total_height_mm = first_layer_height + n * layer_height (one layer_height
more than the claimed formula) and estimated_time_minutes =
total_height / layer_height * 0.5 computed from that total. -/
theorem C3_statistics_formulas (cfg : SlicerConfig) (m : Mesh) (bb : BBox)
    (l0 : List Layer) (cb : Bool) (tr : List Obs) (sp : Slicer)
    (hlh : 0 < cfg.layer_height)
    (h : slice_mesh cb ⟨cfg, some m, l0, some bb⟩ = some (tr, sp))
    (hne : sp.layers ≠ []) :
    get_statistics sp = some
      { total_layers := sp.layers.length
        total_height_mm :=
          cfg.first_layer_height + (sp.layers.length : ℚ) * cfg.layer_height
        first_layer_height_mm := cfg.first_layer_height
        layer_height_mm := cfg.layer_height
        bounding_box := some bb
        estimated_time_minutes :=
          (cfg.first_layer_height + (sp.layers.length : ℚ) * cfg.layer_height) /
            cfg.layer_height * (1/2) } := by
  rw [slice_mesh_closed cb cfg m l0 bb hlh] at h
  have hsp := ((Prod.mk.injEq _ _ _ _).mp ((Option.some.injEq _ _).mp h)).2
  subst hsp
  cases hcase : layerCount bb.max.z cfg.layer_height
      (bb.min.z + cfg.first_layer_height) with
  | zero =>
    exfalso
    apply hne
    simp [hcase, schedLayers]
  | succ k =>
    simp only [hcase] at hne ⊢
    rw [schedLayers_succ, schedLayer_zero]
    simp only [get_statistics, List.length_cons, schedLayers_length,
      Option.some.injEq, Stats.mk.injEq]
    push_cast
    ring_nf
    exact ⟨trivial, trivial, trivial, trivial, trivial, trivial⟩

/-- Instantiation of the C3 statistics theorem on the sliced unit cube. -/
theorem C3_statistics_formulas_witness :
    get_statistics cubeSliced = some
      { total_layers := cubeSliced.layers.length
        total_height_mm :=
          cubeCfg.first_layer_height +
            (cubeSliced.layers.length : ℚ) * cubeCfg.layer_height
        first_layer_height_mm := cubeCfg.first_layer_height
        layer_height_mm := cubeCfg.layer_height
        bounding_box := some cubeBB
        estimated_time_minutes :=
          (cubeCfg.first_layer_height +
            (cubeSliced.layers.length : ℚ) * cubeCfg.layer_height) /
            cubeCfg.layer_height * (1/2) } :=
  C3_statistics_formulas cubeCfg cubeMeshC cubeBB [] true cubeTrace cubeSliced
    (by with_unfolding_all decide) (by with_unfolding_all decide)
    (by with_unfolding_all decide)

/-- Python values as assembled by Slicer.export_to_json (slicer.py lines
215-238): JSON-native scalars, lists and string-keyed dicts, plus raw numpy
arrays (which json.dump cannot serialize) and None. -/
inductive PyVal where
  | pnum : ℚ → PyVal
  | pstr : String → PyVal
  | plist : List PyVal → PyVal
  | pdict : List (String × PyVal) → PyVal
  | pndarray : List ℚ → PyVal
  | pnone : PyVal

/-- Whether json.dump accepts the value: every node must be JSON-native; a
numpy ndarray anywhere raises TypeError (caught by the except clause of
export_to_json, which then returns False). -/
def jsonSerializable : PyVal → Bool
  | .pnum _ => true
  | .pstr _ => true
  | .pnone => true
  | .pndarray _ => false
  | .plist [] => true
  | .plist (x :: xs) => jsonSerializable x && jsonSerializable (.plist xs)
  | .pdict [] => true
  | .pdict ((_, v) :: xs) => jsonSerializable v && jsonSerializable (.pdict xs)

/-- A point as produced by ndarray.tolist(): a plain 3-element list. -/
def ptToPy (p : Pt3) : PyVal := .plist [.pnum p.x, .pnum p.y, .pnum p.z]

/-- A list of polylines under .tolist(): nested plain lists. -/
def polylinesToPy (ls : List (List Pt3)) : PyVal :=
  .plist (ls.map (fun c => .plist (c.map ptToPy)))

/-- The stored bounding box exactly as it enters the export dict (slicer.py
line 226): a dict of raw numpy arrays, never converted by .tolist(). -/
def bboxToPy : Option BBox → PyVal
  | none => .pnone
  | some bb =>
    .pdict [("min", .pndarray [bb.min.x, bb.min.y, bb.min.z]),
            ("max", .pndarray [bb.max.x, bb.max.y, bb.max.z]),
            ("size", .pndarray [bb.size.x, bb.size.y, bb.size.z])]

/-- get_statistics as a Python value ({} when empty); its bounding_box entry
is again the raw numpy-array dict (slicer.py line 179). -/
def statisticsToPy (s : Slicer) : PyVal :=
  match get_statistics s with
  | none => .pdict []
  | some st =>
    .pdict [("total_layers", .pnum st.total_layers),
            ("total_height_mm", .pnum st.total_height_mm),
            ("first_layer_height_mm", .pnum st.first_layer_height_mm),
            ("layer_height_mm", .pnum st.layer_height_mm),
            ("bounding_box", bboxToPy st.bounding_box),
            ("estimated_time_minutes", .pnum st.estimated_time_minutes)]

/-- The data dict built by Slicer.export_to_json (slicer.py lines 215-238). -/
def exportData (s : Slicer) : PyVal :=
  .pdict
    [("config", .pdict
        [("layer_height", .pnum s.config.layer_height),
         ("first_layer_height", .pnum s.config.first_layer_height),
         ("nozzle_diameter", .pnum s.config.nozzle_diameter),
         ("fill_density", .pnum s.config.fill_density),
         ("fill_pattern", .pstr s.config.fill_pattern),
         ("perimeter_count", .pnum s.config.perimeter_count),
         ("top_solid_layers", .pnum s.config.top_solid_layers),
         ("bottom_solid_layers", .pnum s.config.bottom_solid_layers)]),
     ("bounding_box", bboxToPy s.bounding_box),
     ("statistics", statisticsToPy s),
     ("layers", .plist (s.layers.map (fun L => .pdict
        [("z_height", .pnum L.z_height),
         ("layer_index", .pnum L.layer_index),
         ("contours", polylinesToPy L.contours),
         ("infill", polylinesToPy L.infill),
         ("supports", polylinesToPy L.supports)])))]

/-- Embedding of Slicer.export_to_json (slicer.py lines 213-246): builds the
data dict and succeeds iff json.dump accepts it; on the TypeError raised for
a numpy array the except clause returns False. -/
def export_to_json (s : Slicer) : Bool := jsonSerializable (exportData s)

/-- Whenever a bounding box is stored, the export dict holds raw numpy
arrays and json.dump rejects it, so export_to_json returns False. -/
theorem export_to_json_false_of_bbox (s : Slicer) (bb : BBox)
    (hbb : s.bounding_box = some bb) : export_to_json s = false := by
  simp [export_to_json, exportData, hbb, bboxToPy, jsonSerializable]

/-- With nothing loaded, the export dict is JSON-native and serialization
succeeds. -/
theorem export_to_json_true_of_init (cfg : SlicerConfig) :
    export_to_json (Slicer.init cfg) = true := by
  simp [export_to_json, exportData, Slicer.init, bboxToPy, statisticsToPy,
    get_statistics, jsonSerializable]

/-- Claim C2: after a successful load and slice the stored bounding box is a
dict of numpy arrays, json.dump raises TypeError on it and export_to_json
returns False (here on the sliced unit-cube state), so the export never
succeeds, let alone round-trips; on a freshly initialized slicer with no
bounding box the same serialization succeeds, isolating the failure to the
raw bounding-box arrays. -/
theorem C2_export_to_json_fails :
    export_to_json cubeSliced = false ∧
    cubeSliced.mesh.isSome = true ∧
    cubeSliced.layers.length = 4 ∧
    export_to_json (Slicer.init cubeCfg) = true := by
  refine ⟨export_to_json_false_of_bbox cubeSliced cubeBB ?_, ?_, ?_,
    export_to_json_true_of_init cubeCfg⟩
  · with_unfolding_all decide
  · with_unfolding_all decide
  · with_unfolding_all decide

/-- numpy.arange over exact rationals: values start + i * step while
strictly below stop, for positive step (the slicer only reaches it with
spacing = nozzle_diameter / fill_density > 0). -/
def arange (start stop step : ℚ) : List ℚ :=
  if 0 < step then
    (List.range (⌈(stop - start) / step⌉.toNat)).map (fun i => start + (i : ℚ) * step)
  else []

/-- The try block of Slicer.generate_infill (slicer.py lines 131-152) on the
stacked contour points.  np.vstack followed by min/max raises on an empty
point set; spacing = nozzle_diameter / fill_density raises ZeroDivisionError
when fill_density is 0; in the grid branch the line-construction statements
at lines 144 and 148 are not executable Python (a keyword argument z=...
inside a list literal, with unbalanced brackets), so whenever either
np.arange produces a candidate coordinate the construction of the very first
line fails and nothing is ever appended; with no candidate coordinates, or a
non-grid pattern, the block completes without appending anything. -/
def generate_infill_body (cfg : SlicerConfig) (pts : List Pt3) :
    Except String (List (List Pt3)) :=
  match pts with
  | [] => Except.error "ValueError"
  | p :: ps =>
    let min_x := (ps.map Pt3.x).foldl min p.x
    let min_y := (ps.map Pt3.y).foldl min p.y
    let max_x := (ps.map Pt3.x).foldl max p.x
    let max_y := (ps.map Pt3.y).foldl max p.y
    if cfg.fill_density = 0 then Except.error "ZeroDivisionError"
    else
      let spacing := cfg.nozzle_diameter / cfg.fill_density
      if cfg.fill_pattern = "grid" then
        if (arange min_x max_x spacing).isEmpty && (arange min_y max_y spacing).isEmpty then
          Except.ok []
        else Except.error "invalid line construction, slicer.py line 144"
      else Except.ok []

/-- Embedding of Slicer.generate_infill (slicer.py lines 124-152): early
return when the layer has no contours; otherwise run the try block on the
stacked contours; the bare except clause swallows any failure, leaving the
layer as it was. -/
def generate_infill (cfg : SlicerConfig) (layer : Layer) : Layer :=
  if layer.contours.isEmpty then layer
  else
    match generate_infill_body cfg layer.contours.flatten with
    | Except.ok ls => { layer with infill := layer.infill ++ ls }
    | Except.error _ => layer

/-- Does the Except value carry an error. -/
def exceptFailed {α : Type} : Except String α → Bool
  | Except.error _ => true
  | Except.ok _ => false

/-- Modelled from the spec: the number of grid infill lines section 4.3
prescribes for one layer, two axis-aligned families of candidate lines at
spacing = nozzle_diameter / fill_density intervals across the contour
bounding box. -/
def specGridLineCount (cfg : SlicerConfig) (layer : Layer) : ℕ :=
  match layer.contours.flatten with
  | [] => 0
  | p :: ps =>
    let min_x := (ps.map Pt3.x).foldl min p.x
    let min_y := (ps.map Pt3.y).foldl min p.y
    let max_x := (ps.map Pt3.x).foldl max p.x
    let max_y := (ps.map Pt3.y).foldl max p.y
    let spacing := cfg.nozzle_diameter / cfg.fill_density
    (arange min_x max_x spacing).length + (arange min_y max_y spacing).length

/-- Claim C8: generate_infill with fill_density = 0 leaves layer.infill
unchanged (the spacing division raises ZeroDivisionError before any line is
built, the bare except swallows it), in particular empty when it was empty,
for every fill_pattern; and with no contours it is a no-op. -/
theorem C8_infill_noop (cfg : SlicerConfig) (layer : Layer) :
    (layer.contours = [] → generate_infill cfg layer = layer) ∧
    (cfg.fill_density = 0 → (generate_infill cfg layer).infill = layer.infill) ∧
    (cfg.fill_density = 0 → layer.infill = [] →
      (generate_infill cfg layer).infill = []) := by
  have hmain : cfg.fill_density = 0 →
      (generate_infill cfg layer).infill = layer.infill := by
    intro h0
    by_cases hc : layer.contours.isEmpty
    · simp [generate_infill, hc]
    · simp only [generate_infill, hc, Bool.false_eq_true, if_false]
      cases hj : layer.contours.flatten with
      | nil => simp [generate_infill_body]
      | cons p ps => simp [generate_infill_body, h0]
  refine ⟨?_, hmain, ?_⟩
  · intro h
    simp [generate_infill, h]
  · intro h0 hempty
    rw [hmain h0, hempty]

/-- The cube-scenario config with fill_density explicitly 0. -/
def c8Cfg : SlicerConfig := SlicerConfig.make (1/5) none (2/5) 0 "grid" 2 3 3

/-- A layer with no contours but existing infill. -/
def c8LayerNoContours : Layer := ⟨1/10, 0, [], [[⟨0, 0, 1/10⟩, ⟨1, 0, 1/10⟩]], []⟩

/-- A layer holding one square contour and empty infill. -/
def c8LayerSquare : Layer :=
  ⟨1/10, 0,
   [[⟨-1/2, -1/2, 1/10⟩, ⟨1/2, -1/2, 1/10⟩, ⟨1/2, 1/2, 1/10⟩, ⟨-1/2, 1/2, 1/10⟩]],
   [], []⟩

/-- Instantiation of the C8 no-op theorem: on a contourless layer
generate_infill returns the layer itself, and with fill_density 0 the square
layer keeps its empty infill. -/
theorem C8_infill_noop_witness :
    generate_infill c8Cfg c8LayerNoContours = c8LayerNoContours ∧
    (generate_infill c8Cfg c8LayerSquare).infill = [] := by
  refine ⟨(C8_infill_noop c8Cfg c8LayerNoContours).1 rfl, ?_⟩
  exact (C8_infill_noop c8Cfg c8LayerSquare).2.2 (by with_unfolding_all decide) rfl

/-- The grid config of the C9 scenario: nozzle 0.4, fill_density 0.2. -/
def c9Cfg : SlicerConfig := SlicerConfig.make (1/5) none (2/5) (1/5) "grid" 2 3 3

/-- Claim C9 concerns a layer with contours and positive density; here the
unit-square contour at z = 0.1. -/
def c9Layer : Layer := c8LayerSquare

/-- Claim C9: the code computes spacing = nozzle_diameter / fill_density
(= 2.0 here), and the spec's grid scheme then yields 2 infill lines for the
unit-square layer, but the code's line-construction statements (slicer.py
lines 144 and 148) are not valid Python, so the try block fails and the
emitted infill is empty: no infill line is ever generated at any density. -/
theorem C9_infill_generation_broken :
    c9Cfg.nozzle_diameter / c9Cfg.fill_density = 2 ∧
    specGridLineCount c9Cfg c9Layer = 2 ∧
    exceptFailed (generate_infill_body c9Cfg c9Layer.contours.flatten) = true ∧
    (generate_infill c9Cfg c9Layer).infill = [] := by
  with_unfolding_all decide

/-- Claim C10: constructing SlicerConfig with first_layer_height explicitly 0
yields exactly the same configuration as leaving it unset, and its stored
first_layer_height is layer_height. -/
theorem C10_zero_first_layer_height (lh nd fd : ℚ) (fp : String) (pc tsl bsl : ℤ) :
    SlicerConfig.make lh (some 0) nd fd fp pc tsl bsl =
      SlicerConfig.make lh none nd fd fp pc tsl bsl ∧
    (SlicerConfig.make lh (some 0) nd fd fp pc tsl bsl).first_layer_height = lh := by
  constructor
  · simp [SlicerConfig.make]
  · simp [SlicerConfig.make]

/-- Concrete instantiation of C10 at layer_height 0.2 and the default
remaining parameters. -/
theorem C10_zero_first_layer_height_witness :
    SlicerConfig.make (1/5) (some 0) (2/5) (1/5) "grid" 2 3 3 =
      SlicerConfig.make (1/5) none (2/5) (1/5) "grid" 2 3 3 :=
  (C10_zero_first_layer_height (1/5) (2/5) (1/5) "grid" 2 3 3).1
